import Mathlib

/-!
Shallow embedding of the OpenMind mental-health web application
(web_application/views.py, forms.py, models.py), together with proofs of
the behavioural claims about its chat, mood-tracking, registration and
resource views.

Conventions of the embedding:
* Python strings are Lean `String`s; `str.lower` becomes `pyLower`,
  `str.strip` becomes `pyStrip`, and the Python substring test
  `needle in hay` becomes `strContains hay needle`.
* Database tables are Lean lists of records; a declared uniqueness
  constraint is enforced by the embedded save operation, which fails
  (raises) exactly when the constraint would be violated.
* Dates are integers (day numbers), so that "yesterday" is `today - 1`.
* A Django view becomes a pure function from the relevant state and
  request data to an HTTP status code plus the successor state.
-/

namespace OpenMind

/-- Python `str.lower` (ASCII case folding, which is all the keyword
matching in views.py relies on). -/
def pyLower (s : String) : String := String.mk (s.toList.map Char.toLower)

/-- `listStartsWith needle hay` is true when `needle` is a prefix of `hay`. -/
def listStartsWith : List Char → List Char → Bool
  | [], _ => true
  | _ :: _, [] => false
  | a :: as, b :: bs => a == b && listStartsWith as bs

/-- `listHasSub needle hay` is true when `needle` occurs as a contiguous
substring of `hay` (the semantics of Python `needle in hay` on strings). -/
def listHasSub (needle : List Char) : List Char → Bool
  | [] => listStartsWith needle []
  | c :: rest => listStartsWith needle (c :: rest) || listHasSub needle rest

/-- Python `sub in hay` on strings. -/
def strContains (hay sub : String) : Bool := listHasSub sub.toList hay.toList

/-- Python `str.strip` with no argument: drop leading and trailing
whitespace. -/
def pyStrip (s : String) : String :=
  String.mk (((s.toList.dropWhile Char.isWhitespace).reverse.dropWhile
    Char.isWhitespace).reverse)

/-- `any(word in message_lower for word in ws)` from views.py. -/
def anyKeyword (message_lower : String) (ws : List String) : Bool :=
  ws.any (fun w => strContains message_lower w)

/-- views.py, send_message_api: `crisis_keywords = ['suicide', 'kill myself',
'end it all', 'hopeless', 'want to die']`. -/
def crisis_keywords : List String :=
  ["suicide", "kill myself", "end it all", "hopeless", "want to die"]

/-- views.py, send_message_api: `contains_crisis = any(keyword in
user_message.lower() for keyword in crisis_keywords)`. -/
def containsCrisisKeywords (user_message : String) : Bool :=
  crisis_keywords.any (fun keyword => strContains (pyLower user_message) keyword)

/-- views.py, generate_ai_response: anxiety keyword list. -/
def anxiety_words : List String := ["anxious", "anxiety", "worried", "nervous"]

/-- views.py, generate_ai_response: sadness keyword list. -/
def sadness_words : List String := ["sad", "depressed", "down", "lonely"]

/-- views.py, generate_ai_response: stress keyword list. -/
def stress_words : List String := ["stressed", "stress", "overwhelmed", "pressure"]

/-- views.py, generate_ai_response: gratitude keyword list. -/
def gratitude_words : List String := ["thank", "better", "helped", "good"]

/-- The fixed reply returned when the crisis flag is set. -/
def crisis_template : String :=
  "I\x27m really concerned about what you\x27re sharing with me. Your safety is the most important thing right now. \n\n**Please reach out for immediate help:**\n- National Crisis Hotline: 988 (US)\n- Crisis Text Line: Text HOME to 741741\n- Emergency Services: 911\n\nYou don\x27t have to face this alone. Would you like me to help you connect with a professional counselor right now?"

/-- The fixed reply returned for anxiety keywords. -/
def anxiety_template : String :=
  "I hear that you\x27re feeling anxious. That\x27s a very common experience, and it\x27s brave of you to talk about it. \n\nLet\x27s try a quick grounding exercise together:\n1. Name 5 things you can see\n2. 4 things you can touch\n3. 3 things you can hear\n4. 2 things you can smell\n5. 1 thing you can taste\n\nWould you like to try this, or would you prefer to talk more about what\x27s making you feel anxious?"

/-- The fixed reply returned for sadness keywords. -/
def sadness_template : String :=
  "Thank you for sharing how you\x27re feeling. It takes courage to acknowledge when we\x27re struggling. Feeling sad or down is a valid emotional experience.\n\nCan you tell me a bit more about what\x27s been going on? Sometimes talking through our feelings can help us understand them better. I\x27m here to listen without judgment."

/-- The fixed reply returned for stress keywords. -/
def stress_template : String :=
  "It sounds like you\x27re dealing with a lot of stress right now. That can be really exhausting, both mentally and physically.\n\nLet\x27s break this down together. What\x27s the main source of stress for you right now? Sometimes identifying the specific stressors can help us develop strategies to manage them better.\n\nHave you tried any stress-relief techniques that have worked for you in the past?"

/-- The fixed reply returned for gratitude keywords. -/
def gratitude_template : String :=
  "I\x27m so glad I could help! Remember, taking care of your mental health is an ongoing journey, and it\x27s wonderful that you\x27re being proactive about it.\n\nFeel free to come back anytime you need support. Is there anything else you\x27d like to talk about today?"

/-- The fixed reply returned when nothing matches. -/
def default_template : String :=
  "I appreciate you sharing that with me. Your feelings and experiences are valid and important.\n\nCould you tell me a bit more about what\x27s on your mind? I\x27m here to listen and support you in whatever way I can. Whether you\x27re dealing with stress, anxiety, or just need someone to talk to, this is a safe space for you."

/-- The six templates, in the order generate_ai_response checks them. -/
def response_templates : List String :=
  [crisis_template, anxiety_template, sadness_template, stress_template,
   gratitude_template, default_template]

/-- views.py, generate_ai_response: the scripted reply, a keyword-match over
the lowercased message after an initial crisis-flag check. -/
def generate_ai_response (user_message : String) (is_crisis : Bool) : String :=
  if is_crisis then
    crisis_template
  else
    let message_lower := pyLower user_message
    if anyKeyword message_lower anxiety_words then anxiety_template
    else if anyKeyword message_lower sadness_words then sadness_template
    else if anyKeyword message_lower stress_words then stress_template
    else if anyKeyword message_lower gratitude_words then gratitude_template
    else default_template

/-! ### Chat sessions and the send-message API -/

/-- models.py ChatSession, restricted to the fields the chat views read or
write. `owner` is the id of the owning user. -/
structure ChatSession where
  owner : Nat
  crisis_detected : Bool
  crisis_severity : Int
  total_messages : Int
deriving DecidableEq, Repr

/-- models.py ChatMessage, restricted to the fields send_message_api sets. -/
structure ChatMessage where
  sessionId : Nat
  sender : String
  message_text : String
  contains_crisis_keywords : Bool
  requires_intervention : Bool
deriving DecidableEq, Repr

/-- models.py CrisisAlert, restricted to the fields send_message_api sets. -/
structure CrisisAlert where
  userId : Nat
  sessionId : Nat
  severity : String
  crisis_type : String
  triggering_content : String
deriving DecidableEq, Repr

/-- The database state the chat views touch: sessions keyed by id, plus the
message and alert tables in insertion order. -/
structure ApiState where
  sessions : List (Nat × ChatSession)
  messages : List ChatMessage
  alerts : List CrisisAlert
deriving DecidableEq, Repr

/-- Exceptions the embedded views can raise. `http404` is raised by
`get_object_or_404`; `integrityError` by a save violating a uniqueness
constraint. -/
inductive DbException where
  | http404
  | integrityError
deriving DecidableEq, Repr

/-- `get_object_or_404(ChatSession, id=session_id, user=user)`: the session
with the given id, provided it belongs to the given user. -/
def lookupSession (st : ApiState) (sessionId userId : Nat) : Option ChatSession :=
  match st.sessions.find? (fun p => p.1 == sessionId && p.2.owner == userId) with
  | some p => some p.2
  | none => none

/-- Write back an updated session record under its id (`session.save()`). -/
def setSession (sessions : List (Nat × ChatSession)) (sessionId : Nat)
    (s : ChatSession) : List (Nat × ChatSession) :=
  sessions.map (fun p => if p.1 == sessionId then (p.1, s) else p)

/-- views.py chat_session_view with a session_id: `get_object_or_404` either
renders the page (200) or raises Http404, which Django turns into a 404
response. Only the status is modelled; the view mutates nothing. -/
def chat_session_view (st : ApiState) (userId sessionId : Nat) : Nat :=
  match lookupSession st sessionId userId with
  | some _ => 200
  | none => 404

/-- The body of views.py send_message_api inside its `try:` block. Returns
the HTTP status, the crisis flag reported in the JSON response (`none` for
the early 400 return, which reports no flag), and the successor state.
Mirrors the source order: lookup, strip, empty check, create the user
message (its crisis flags set by the subsequent crisis branch), update the
session and create the alert on crisis, generate the scripted reply, create
the bot message, and bump total_messages by 2. -/
def send_message_api_inner (st : ApiState) (userId sessionId : Nat)
    (rawMessage : String) : Except DbException (Nat × Option Bool × ApiState) :=
  match lookupSession st sessionId userId with
  | none => .error .http404
  | some session =>
    let user_message := pyStrip rawMessage
    if user_message = "" then
      .ok (400, none, st)
    else
      let contains_crisis := containsCrisisKeywords user_message
      let user_msg : ChatMessage :=
        { sessionId := sessionId, sender := "user", message_text := user_message,
          contains_crisis_keywords := contains_crisis,
          requires_intervention := contains_crisis }
      let session1 :=
        if contains_crisis then
          { session with crisis_detected := true, crisis_severity := 8 }
        else session
      let alerts1 :=
        if contains_crisis then
          st.alerts ++ [{ userId := userId, sessionId := sessionId,
                          severity := "high", crisis_type := "suicidal_ideation",
                          triggering_content := user_message }]
        else st.alerts
      let bot_msg : ChatMessage :=
        { sessionId := sessionId, sender := "bot",
          message_text := generate_ai_response user_message contains_crisis,
          contains_crisis_keywords := false, requires_intervention := false }
      let session2 := { session1 with total_messages := session1.total_messages + 2 }
      .ok (200, some contains_crisis,
           { sessions := setSession st.sessions sessionId session2,
             messages := st.messages ++ [user_msg, bot_msg],
             alerts := alerts1 })

/-- views.py send_message_api: the whole body sits in
`try: ... except Exception as e: return JsonResponse(..., status=500)`, so
every raised exception, including the Http404 from `get_object_or_404`,
comes back to the client as a JSON error with status 500. -/
def send_message_api (st : ApiState) (userId sessionId : Nat)
    (rawMessage : String) : Nat × Option Bool × ApiState :=
  match send_message_api_inner st userId sessionId rawMessage with
  | .ok r => r
  | .error _ => (500, none, st)

/-! ### Mood tracking: form validation, uniqueness, streaks -/

/-- The fields of forms.py MoodEntryForm that carry validators in
models.py MoodEntry. `emotions`, `activities`, `triggers` and `notes` have
no validators and cannot affect validity, so they are elided. -/
structure MoodForm where
  mood_level : String
  mood_score : Int
  energy_level : Int
  sleep_quality : Option Int
deriving DecidableEq, Repr

/-- models.py MoodEntry.MOOD_CHOICES (stored values). -/
def MOOD_CHOICES : List String := ["very_bad", "bad", "neutral", "good", "very_good"]

/-- `MinValueValidator(1), MaxValueValidator(10)`, the validator pair on
mood_score, energy_level and sleep_quality in models.py MoodEntry. -/
def withinOneToTen (n : Int) : Bool := 1 ≤ n && n ≤ 10

/-- forms.py MoodEntryForm.is_valid(): a ModelForm runs the model field
validators, so validity requires mood_level to be a declared choice and each
bounded integer field to lie in 1..10 (sleep_quality may be null). -/
def moodFormIsValid (f : MoodForm) : Bool :=
  MOOD_CHOICES.contains f.mood_level &&
  withinOneToTen f.mood_score &&
  withinOneToTen f.energy_level &&
  (match f.sleep_quality with
   | none => true
   | some q => withinOneToTen q)

/-- models.py UserStreak, restricted to the fields mood_tracker_view
touches. `last_mood_entry` is a nullable day number. -/
structure UserStreak where
  current_mood_streak : Int
  longest_mood_streak : Int
  last_mood_entry : Option Int
  total_points : Int
deriving DecidableEq, Repr

/-- A freshly created UserStreak row (all integer fields default 0, dates
null), as register_view creates it. -/
def freshStreak : UserStreak :=
  { current_mood_streak := 0, longest_mood_streak := 0,
    last_mood_entry := none, total_points := 0 }

/-- views.py mood_tracker_view, the streak-update block run after a mood
entry is saved: a single equality test of last_mood_entry against
yesterday decides increment versus reset; the longest streak is raised only
inside the increment branch; finally last_mood_entry becomes today and 10
points are added. -/
def updateStreakOnMoodEntry (streak : UserStreak) (today : Int) : UserStreak :=
  let streak1 :=
    if streak.last_mood_entry = some (today - 1) then
      let cur := streak.current_mood_streak + 1
      { streak with
        current_mood_streak := cur,
        longest_mood_streak :=
          if cur > streak.longest_mood_streak then cur
          else streak.longest_mood_streak }
    else
      { streak with current_mood_streak := 1 }
  { streak1 with last_mood_entry := some today,
                 total_points := streak1.total_points + 10 }

/-- `mood_entry.save()` against the mood_entries table, keyed by
(user, entry_date): models.py declares `unique_together = ['user',
'entry_date']`, so the insert raises IntegrityError exactly when a row with
the same user and date already exists. -/
def saveMoodEntry (entries : List (Nat × Int)) (userId : Nat) (day : Int) :
    Except DbException (List (Nat × Int)) :=
  if (userId, day) ∈ entries then .error .integrityError
  else .ok (entries ++ [(userId, day)])

/-- Outcome of a POST to views.py mood_tracker_view: whether a MoodEntry row
was created, plus the mood_entries table and the streak row afterwards.
An invalid form re-renders with errors; an IntegrityError propagates
(generic 500) leaving the state unchanged. In both failure cases
`entryCreated` is false. -/
structure MoodViewResult where
  entryCreated : Bool
  entries : List (Nat × Int)
  streak : UserStreak
deriving DecidableEq, Repr

/-- views.py mood_tracker_view on POST: validate the form, save the entry
dated today, then run the streak update. -/
def mood_tracker_post (entries : List (Nat × Int)) (streak : UserStreak)
    (userId : Nat) (today : Int) (form : MoodForm) : MoodViewResult :=
  if moodFormIsValid form then
    match saveMoodEntry entries userId today with
    | .ok entries2 =>
      { entryCreated := true, entries := entries2,
        streak := updateStreakOnMoodEntry streak today }
    | .error _ =>
      { entryCreated := false, entries := entries, streak := streak }
  else
    { entryCreated := false, entries := entries, streak := streak }

/-! ### Registration -/

/-- forms.py UserRegistrationForm, restricted to the fields whose validation
the registration claims concern. -/
structure RegistrationForm where
  username : String
  email : String
  password : String
  confirm_password : String
deriving DecidableEq, Repr

/-- forms.py UserRegistrationForm.clean_email: rejects when
`User.objects.filter(email=email).exists()`. -/
def clean_email_ok (existingEmails : List String) (email : String) : Bool :=
  decide (¬ email ∈ existingEmails)

/-- forms.py UserRegistrationForm.is_valid(): the unique-username model
validation, clean_email, and the password-confirmation check in clean(). -/
def registrationFormValid (existingUsernames existingEmails : List String)
    (f : RegistrationForm) : Bool :=
  decide (¬ f.username ∈ existingUsernames) &&
  clean_email_ok existingEmails f.email &&
  f.password == f.confirm_password

/-- views.py register_view on POST: the users table as (username, email)
pairs; a new User row is saved only when the form validates. -/
def register_view_post (users : List (String × String))
    (f : RegistrationForm) : List (String × String) :=
  if registrationFormValid (users.map Prod.fst) (users.map Prod.snd) f then
    users ++ [(f.username, f.email)]
  else users

/-! ### Resources -/

/-- models.py Resource, restricted to the stored fields the resource views
touch or that the frame claim enumerates; `updated_at` carries
`auto_now=True`, so every save stamps it with the save time. -/
structure Resource where
  title : String
  resource_type : String
  description : String
  content : String
  view_count : Int
  like_count : Int
  share_count : Int
  is_featured : Bool
  is_published : Bool
  created_at : Int
  updated_at : Int
deriving DecidableEq, Repr

/-- `resource.save()`: because updated_at is declared `auto_now=True`, the
save rewrites it to the current time `now`. -/
def resourceSave (r : Resource) (now : Int) : Resource :=
  { r with updated_at := now }

/-- views.py resource_detail_view: `get_object_or_404(Resource,
id=resource_id, is_published=True)` (modelled as `none` = 404 when the
resource is unpublished), then `view_count += 1` and save at time `now`. -/
def resource_detail_view (r : Resource) (now : Int) : Option Resource :=
  if r.is_published then
    some (resourceSave { r with view_count := r.view_count + 1 } now)
  else none

/-! ### Concrete fixtures used by witnesses and counterexamples -/

/-- A session owned by user 7 with no crisis recorded yet. -/
def exSession : ChatSession :=
  { owner := 7, crisis_detected := false, crisis_severity := 0,
    total_messages := 1 }

/-- A state holding exactly session 1 (owned by user 7) and nothing else. -/
def exState : ApiState :=
  { sessions := [(1, exSession)], messages := [], alerts := [] }

/-- A state with no sessions at all, so every session lookup fails. -/
def emptyState : ApiState := { sessions := [], messages := [], alerts := [] }

/-- A streak mid-run: 3-day current streak, 5-day record, last entry day 4. -/
def exStreak : UserStreak :=
  { current_mood_streak := 3, longest_mood_streak := 5,
    last_mood_entry := some 4, total_points := 20 }

/-- A mood form that passes every validator. -/
def exMoodForm : MoodForm :=
  { mood_level := "good", mood_score := 7, energy_level := 5,
    sleep_quality := some 8 }

/-- A mood form whose mood_score 11 violates MaxValueValidator(10). -/
def exBadMoodForm : MoodForm :=
  { mood_level := "good", mood_score := 11, energy_level := 5,
    sleep_quality := none }

/-- A registration attempt reusing the email of the existing user below. -/
def exRegForm : RegistrationForm :=
  { username := "newuser", email := "a@example.com", password := "pw12345",
    confirm_password := "pw12345" }

/-- One existing user row: username alice, email a@example.com. -/
def exUsers : List (String × String) := [("alice", "a@example.com")]

/-- A published resource with some engagement counters. -/
def exResource : Resource :=
  { title := "Coping with stress", resource_type := "article",
    description := "desc", content := "body", view_count := 4,
    like_count := 2, share_count := 1, is_featured := false,
    is_published := true, created_at := 50, updated_at := 60 }

/-! ### Helper lemmas -/

/-- Every entry of `setSession sessions sid s` whose key is `sid` carries the
written record `s`. -/
theorem setSession_mem_eq {sessions : List (Nat × ChatSession)}
    {sessionId : Nat} {s : ChatSession} {p : Nat × ChatSession}
    (hp : p ∈ setSession sessions sessionId s) (h1 : p.1 = sessionId) :
    p.2 = s := by
  unfold setSession at hp
  rcases List.mem_map.mp hp with ⟨q, _, hfq⟩
  by_cases hc : (q.1 == sessionId) = true
  · rw [if_pos hc] at hfq
    rw [← hfq]
  · rw [if_neg hc] at hfq
    subst hfq
    exact absurd (beq_iff_eq.mpr h1) hc

/-! ### Claim theorems -/

/-- C6: the bot reply is a static keyword-matched string: generate_ai_response
is a deterministic function of the message text and the crisis flag, always
returning one of exactly six fixed template strings (the six are pairwise
distinct), selected by checking in order the crisis flag, then anxiety,
sadness, stress and gratitude keywords, with a fixed default. -/
theorem C6_scripted_reply (m : String) (c : Bool) :
    generate_ai_response m c ∈ response_templates ∧
    response_templates.Nodup ∧
    generate_ai_response m c =
      (if c then crisis_template
       else if anyKeyword (pyLower m) anxiety_words then anxiety_template
       else if anyKeyword (pyLower m) sadness_words then sadness_template
       else if anyKeyword (pyLower m) stress_words then stress_template
       else if anyKeyword (pyLower m) gratitude_words then gratitude_template
       else default_template) := by
  refine ⟨?_, by decide, by rfl⟩
  unfold generate_ai_response
  dsimp only
  split_ifs <;> simp [response_templates]

/-- C6 witness: a concrete call lands in the template list. -/
theorem C6_scripted_reply_witness :
    generate_ai_response "hello" false ∈ response_templates :=
  (C6_scripted_reply "hello" false).1

/-- C3 counterexample: with no sessions, the lookup in send_message_api
fails, yet the endpoint answers 500, not 404: the Http404 raised by
get_object_or_404 is swallowed by the surrounding `except Exception` and
re-emitted as a status-500 JSON error. -/
theorem C3_counterexample :
    lookupSession emptyState 1 1 = none ∧
    (send_message_api emptyState 1 1 "hello").1 = 500 ∧
    ¬ (send_message_api emptyState 1 1 "hello").1 = 404 := by decide

/-- C3 amended: a failed session lookup yields a 404 page from
chat_session_view, but send_message_api catches the Http404 in its generic
exception handler and returns a JSON error with status 500 (leaving the
state unchanged). -/
theorem C3_lookup_failure (st : ApiState) (userId sessionId : Nat)
    (raw : String) (h : lookupSession st sessionId userId = none) :
    chat_session_view st userId sessionId = 404 ∧
    send_message_api st userId sessionId raw = (500, none, st) := by
  constructor
  · unfold chat_session_view
    rw [h]
  · unfold send_message_api send_message_api_inner
    rw [h]

/-- C3 witness: the amended statement at the empty state. -/
theorem C3_lookup_failure_witness :
    chat_session_view emptyState 1 1 = 404 ∧
    send_message_api emptyState 1 1 "hi" = (500, none, emptyState) :=
  C3_lookup_failure emptyState 1 1 "hi" (by decide)

/-- C8: a POST whose message strips to the empty string is answered with
status 400 and changes nothing: no message row, no alert, and the session
rows (total_messages, crisis fields) are exactly as before. -/
theorem C8_empty_message (st : ApiState) (userId sessionId : Nat)
    (raw : String) (session : ChatSession)
    (hlook : lookupSession st sessionId userId = some session)
    (hempty : pyStrip raw = "") :
    send_message_api st userId sessionId raw = (400, none, st) := by
  unfold send_message_api send_message_api_inner
  rw [hlook]
  simp [hempty]

/-- C8 witness: a whitespace-only message against the one-session state. -/
theorem C8_empty_message_witness :
    send_message_api exState 7 1 "   " = (400, none, exState) :=
  C8_empty_message exState 7 1 "   " exSession (by decide) (by decide)

/-- C1: for a message posted through send_message_api (session found,
message non-empty after stripping): if the lowercased text contains a
crisis keyword, a CrisisAlert with severity high and crisis_type
suicidal_ideation is appended for that user and session, the stored user
ChatMessage is marked contains_crisis_keywords and requires_intervention,
and the session row is marked crisis_detected (severity 8); if no keyword
matches, the alert table is unchanged, the stored message is unmarked, and
the session crisis fields keep their previous values. -/
theorem C1_crisis_detection (st : ApiState) (userId sessionId : Nat)
    (raw : String) (session : ChatSession)
    (hlook : lookupSession st sessionId userId = some session)
    (hne : ¬ pyStrip raw = "") :
    (containsCrisisKeywords (pyStrip raw) = true →
      (send_message_api st userId sessionId raw).2.2.alerts =
        st.alerts ++ [{ userId := userId, sessionId := sessionId,
                        severity := "high",
                        crisis_type := "suicidal_ideation",
                        triggering_content := pyStrip raw }] ∧
      (send_message_api st userId sessionId raw).2.2.messages =
        st.messages ++
          [{ sessionId := sessionId, sender := "user",
             message_text := pyStrip raw, contains_crisis_keywords := true,
             requires_intervention := true },
           { sessionId := sessionId, sender := "bot",
             message_text := generate_ai_response (pyStrip raw) true,
             contains_crisis_keywords := false,
             requires_intervention := false }] ∧
      (∀ p ∈ (send_message_api st userId sessionId raw).2.2.sessions,
         p.1 = sessionId →
           p.2.crisis_detected = true ∧ p.2.crisis_severity = 8)) ∧
    (containsCrisisKeywords (pyStrip raw) = false →
      (send_message_api st userId sessionId raw).2.2.alerts = st.alerts ∧
      (send_message_api st userId sessionId raw).2.2.messages =
        st.messages ++
          [{ sessionId := sessionId, sender := "user",
             message_text := pyStrip raw, contains_crisis_keywords := false,
             requires_intervention := false },
           { sessionId := sessionId, sender := "bot",
             message_text := generate_ai_response (pyStrip raw) false,
             contains_crisis_keywords := false,
             requires_intervention := false }] ∧
      (∀ p ∈ (send_message_api st userId sessionId raw).2.2.sessions,
         p.1 = sessionId →
           p.2.crisis_detected = session.crisis_detected ∧
           p.2.crisis_severity = session.crisis_severity)) := by
  unfold send_message_api send_message_api_inner
  rw [hlook]
  dsimp only
  rw [if_neg hne]
  rcases hcc : containsCrisisKeywords (pyStrip raw) with _ | _ <;>
    simp only [hcc, if_true, if_false, Bool.false_eq_true,
      Bool.true_eq_false, false_implies, true_implies, true_and,
      and_true, not_false_eq_true, reduceIte]
  · intro p hp h1
    have h2 := setSession_mem_eq hp h1
    rw [h2]
    exact ⟨rfl, rfl⟩
  · intro p hp h1
    have h2 := setSession_mem_eq hp h1
    rw [h2]
    exact ⟨rfl, rfl⟩

/-- C1 witness: the message " I feel hopeless " in the one-session state
triggers the crisis alert. -/
theorem C1_crisis_detection_witness :
    (send_message_api exState 7 1 " I feel hopeless ").2.2.alerts =
      exState.alerts ++ [{ userId := 7, sessionId := 1, severity := "high",
                           crisis_type := "suicidal_ideation",
                           triggering_content := pyStrip " I feel hopeless " }] :=
  ((C1_crisis_detection exState 7 1 " I feel hopeless " exSession
      (by decide) (by decide)).1 (by decide)).1

/-- C2 counterexample: the first-ever successful mood entry of a fresh user
runs the reset branch; the new current streak (1) exceeds the recorded
longest streak (0), yet longest_mood_streak is not raised to it, because the
code raises the longest streak only inside the increment branch. This
refutes the clause that the longest streak is raised whenever the new
current value exceeds it. -/
theorem C2_counterexample :
    (mood_tracker_post [] freshStreak 7 100 exMoodForm).entryCreated = true ∧
    (mood_tracker_post [] freshStreak 7 100 exMoodForm).streak =
      { current_mood_streak := 1, longest_mood_streak := 0,
        last_mood_entry := some 100, total_points := 10 } ∧
    (mood_tracker_post [] freshStreak 7 100 exMoodForm).streak.longest_mood_streak <
      (mood_tracker_post [] freshStreak 7 100 exMoodForm).streak.current_mood_streak := by
  decide

/-- C2 amended: on a successful mood entry, a single equality test of
last_mood_entry against the day before today decides the update: if it
matches, the current streak is incremented and the longest streak becomes
the maximum of its old value and the new current value; otherwise the
current streak resets to 1 and the longest streak is left unchanged (even
when the reset value 1 exceeds it); last_mood_entry becomes today and 10
points are added. -/
theorem C2_streak_update (s : UserStreak) (today : Int) :
    (s.last_mood_entry = some (today - 1) →
      (updateStreakOnMoodEntry s today).current_mood_streak =
        s.current_mood_streak + 1 ∧
      (updateStreakOnMoodEntry s today).longest_mood_streak =
        max s.longest_mood_streak (s.current_mood_streak + 1)) ∧
    (¬ s.last_mood_entry = some (today - 1) →
      (updateStreakOnMoodEntry s today).current_mood_streak = 1 ∧
      (updateStreakOnMoodEntry s today).longest_mood_streak =
        s.longest_mood_streak) ∧
    (updateStreakOnMoodEntry s today).last_mood_entry = some today ∧
    (updateStreakOnMoodEntry s today).total_points = s.total_points + 10 := by
  refine ⟨fun h => ⟨?_, ?_⟩, fun h => ⟨?_, ?_⟩, ?_, ?_⟩
  · simp [updateStreakOnMoodEntry, h]
  · simp only [updateStreakOnMoodEntry, h, reduceIte]
    split <;> omega
  · simp [updateStreakOnMoodEntry, h]
  · simp [updateStreakOnMoodEntry, h]
  · unfold updateStreakOnMoodEntry
    dsimp only
  · unfold updateStreakOnMoodEntry
    dsimp only
    split <;> rfl

/-- C2 witness: a consecutive-day entry increments the streak and updates
the longest streak to the maximum. -/
theorem C2_streak_update_witness :
    (updateStreakOnMoodEntry exStreak 5).current_mood_streak =
      exStreak.current_mood_streak + 1 ∧
    (updateStreakOnMoodEntry exStreak 5).longest_mood_streak =
      max exStreak.longest_mood_streak (exStreak.current_mood_streak + 1) :=
  (C2_streak_update exStreak 5).1 (by decide)

/-- C9 counterexample: the invariant longest >= current holds on a fresh
streak row (0 >= 0) but fails after its first mood entry, which resets the
current streak to 1 while leaving the longest streak at 0. -/
theorem C9_counterexample :
    freshStreak.current_mood_streak ≤ freshStreak.longest_mood_streak ∧
    ¬ ((mood_tracker_post [] freshStreak 7 200 exMoodForm).streak.current_mood_streak ≤
       (mood_tracker_post [] freshStreak 7 200 exMoodForm).streak.longest_mood_streak) := by
  decide

/-- The streak update keeps longest >= current as long as the recorded
longest streak is at least 1. -/
theorem streakUpdate_le (s : UserStreak) (today : Int)
    (_hinv : s.current_mood_streak ≤ s.longest_mood_streak)
    (hpos : 1 ≤ s.longest_mood_streak) :
    (updateStreakOnMoodEntry s today).current_mood_streak ≤
      (updateStreakOnMoodEntry s today).longest_mood_streak := by
  unfold updateStreakOnMoodEntry
  dsimp only
  split
  · dsimp only
    split <;> omega
  · dsimp only
    omega

/-- C9 amended: the mood-logging operation preserves the invariant
longest_mood_streak >= current_mood_streak provided the recorded longest
streak is already at least 1 (which fails only on a never-updated row,
where longest is 0). -/
theorem C9_streak_invariant (entries : List (Nat × Int)) (s : UserStreak)
    (userId : Nat) (today : Int) (form : MoodForm)
    (hinv : s.current_mood_streak ≤ s.longest_mood_streak)
    (hpos : 1 ≤ s.longest_mood_streak) :
    (mood_tracker_post entries s userId today form).streak.current_mood_streak ≤
      (mood_tracker_post entries s userId today form).streak.longest_mood_streak := by
  unfold mood_tracker_post
  split
  · split
    · dsimp only
      exact streakUpdate_le s today hinv hpos
    · dsimp only
      exact hinv
  · dsimp only
    exact hinv

/-- C9 witness: the invariant survives a concrete consecutive-day entry. -/
theorem C9_streak_invariant_witness :
    (mood_tracker_post [] exStreak 7 5 exMoodForm).streak.current_mood_streak ≤
      (mood_tracker_post [] exStreak 7 5 exMoodForm).streak.longest_mood_streak :=
  C9_streak_invariant [] exStreak 7 5 exMoodForm (by decide) (by decide)

/-- C4: a mood_score outside 1..10 makes the MoodEntryForm invalid and the
POST creates no MoodEntry row and leaves the state untouched; a mood_score
within 1..10 passes the min/max validator pair. -/
theorem C4_mood_score_validation (entries : List (Nat × Int))
    (streak : UserStreak) (userId : Nat) (today : Int) (form : MoodForm) :
    (¬ (1 ≤ form.mood_score ∧ form.mood_score ≤ 10) →
      moodFormIsValid form = false ∧
      mood_tracker_post entries streak userId today form =
        { entryCreated := false, entries := entries, streak := streak }) ∧
    ((1 ≤ form.mood_score ∧ form.mood_score ≤ 10) →
      withinOneToTen form.mood_score = true) := by
  constructor
  · intro hbad
    have hscore : withinOneToTen form.mood_score = false := by
      unfold withinOneToTen
      rcases Decidable.not_and_iff_or_not.mp hbad with h | h <;>
        simp [h]
    have hform : moodFormIsValid form = false := by
      unfold moodFormIsValid
      rw [hscore]
      simp
    refine ⟨hform, ?_⟩
    unfold mood_tracker_post
    rw [hform]
    simp
  · intro hgood
    unfold withinOneToTen
    simp [hgood.1, hgood.2]

/-- C4 witness: mood_score 11 is rejected without touching the state, and
mood_score 7 passes the range check. -/
theorem C4_mood_score_validation_witness :
    (moodFormIsValid exBadMoodForm = false ∧
      mood_tracker_post [] freshStreak 7 10 exBadMoodForm =
        { entryCreated := false, entries := [], streak := freshStreak }) ∧
    withinOneToTen exMoodForm.mood_score = true :=
  ⟨(C4_mood_score_validation [] freshStreak 7 10 exBadMoodForm).1 (by decide),
   (C4_mood_score_validation [] freshStreak 7 10 exMoodForm).2 (by decide)⟩

/-- C7: under the unique_together constraint on (user, entry_date), the
mood POST preserves at-most-one-entry-per-user-per-day, and a second
submission by the same user on the same day fails at save time: the table
is unchanged and no row is created. -/
theorem C7_unique_per_day (entries : List (Nat × Int)) (streak : UserStreak)
    (userId : Nat) (today : Int) (form : MoodForm)
    (huniq : entries.Nodup) :
    (mood_tracker_post entries streak userId today form).entries.Nodup ∧
    ((userId, today) ∈ entries →
      (mood_tracker_post entries streak userId today form).entries = entries ∧
      (mood_tracker_post entries streak userId today form).entryCreated = false) := by
  by_cases hv : moodFormIsValid form = true
  · by_cases hm : (userId, today) ∈ entries
    · have hres : mood_tracker_post entries streak userId today form =
          { entryCreated := false, entries := entries, streak := streak } := by
        unfold mood_tracker_post saveMoodEntry
        rw [if_pos hv, if_pos hm]
      rw [hres]
      exact ⟨huniq, fun _ => ⟨rfl, rfl⟩⟩
    · have hres : mood_tracker_post entries streak userId today form =
          { entryCreated := true, entries := entries ++ [(userId, today)],
            streak := updateStreakOnMoodEntry streak today } := by
        unfold mood_tracker_post saveMoodEntry
        rw [if_pos hv, if_neg hm]
      rw [hres]
      refine ⟨?_, fun hmem => absurd hmem hm⟩
      simp [List.nodup_append, huniq, hm]
  · have hres : mood_tracker_post entries streak userId today form =
        { entryCreated := false, entries := entries, streak := streak } := by
      unfold mood_tracker_post
      rw [if_neg hv]
    rw [hres]
    exact ⟨huniq, fun _ => ⟨rfl, rfl⟩⟩

/-- C7 witness: with the entry (7, day 10) already present, a same-day
resubmission leaves the table unchanged and creates nothing. -/
theorem C7_unique_per_day_witness :
    (mood_tracker_post [((7 : Nat), (10 : Int))] freshStreak 7 10
        exMoodForm).entries.Nodup ∧
    ((7, 10) ∈ [((7 : Nat), (10 : Int))] →
      (mood_tracker_post [((7 : Nat), (10 : Int))] freshStreak 7 10
          exMoodForm).entries = [((7 : Nat), (10 : Int))] ∧
      (mood_tracker_post [((7 : Nat), (10 : Int))] freshStreak 7 10
          exMoodForm).entryCreated = false) :=
  C7_unique_per_day [((7 : Nat), (10 : Int))] freshStreak 7 10 exMoodForm
    (by decide)

/-- C5: a registration whose email equals an existing user email fails
validation (clean_email raises) and no User row is created. -/
theorem C5_duplicate_email (users : List (String × String))
    (f : RegistrationForm) (hdup : f.email ∈ users.map Prod.snd) :
    clean_email_ok (users.map Prod.snd) f.email = false ∧
    registrationFormValid (users.map Prod.fst) (users.map Prod.snd) f = false ∧
    register_view_post users f = users := by
  have hclean : clean_email_ok (users.map Prod.snd) f.email = false := by
    unfold clean_email_ok
    simp [hdup]
  have hform : registrationFormValid (users.map Prod.fst)
      (users.map Prod.snd) f = false := by
    unfold registrationFormValid
    rw [hclean]
    simp
  refine ⟨hclean, hform, ?_⟩
  unfold register_view_post
  rw [hform]
  simp

/-- C5 witness: re-registering a@example.com against the table holding
alice with that email changes nothing. -/
theorem C5_duplicate_email_witness :
    clean_email_ok (exUsers.map Prod.snd) exRegForm.email = false ∧
    registrationFormValid (exUsers.map Prod.fst) (exUsers.map Prod.snd)
      exRegForm = false ∧
    register_view_post exUsers exRegForm = exUsers :=
  C5_duplicate_email exUsers exRegForm (by decide)

/-- C10 counterexample: viewing a published resource does increment
view_count by 1, but not every other field is unchanged: updated_at is
declared auto_now=True, so the save inside resource_detail_view rewrites it
to the save time (here 61, overwriting the stored 60). -/
theorem C10_counterexample :
    (resource_detail_view exResource 61).map Resource.view_count =
      some (exResource.view_count + 1) ∧
    ¬ (resource_detail_view exResource 61).map Resource.updated_at =
      some exResource.updated_at := by
  decide

/-- C10 amended: viewing a published resource increments view_count by
exactly 1, refreshes updated_at to the save time (auto_now), and leaves
every other field (title, resource_type, description, content, like_count,
share_count, is_featured, is_published, created_at) unchanged. -/
theorem C10_view_count_frame (r : Resource) (now : Int)
    (h : r.is_published = true) :
    resource_detail_view r now =
      some { r with view_count := r.view_count + 1, updated_at := now } := by
  unfold resource_detail_view resourceSave
  rw [if_pos h]

/-- C10 witness: the amended statement at a concrete published resource. -/
theorem C10_view_count_frame_witness :
    resource_detail_view exResource 61 =
      some { exResource with view_count := exResource.view_count + 1,
                             updated_at := 61 } :=
  C10_view_count_frame exResource 61 (by decide)

end OpenMind
